import Mathlib

/-!
Shallow embedding of the edge-style resolution engine and the edge-styling
preference store of `graph-explorer`
(`src/packages/graph-explorer/src/modules/GraphViewer/useGraphStyles.ts`,
which also carries the `EdgeStylingContext` provider code).

TypeScript optional fields are embedded as `Option`; JavaScript object
spread `\x7b...a, ...b\x7d` becomes field-wise `Option.or` with the second
object's present fields winning; the `styles` object mutated by the
resolution loop becomes an association list updated in place.
-/

set_option autoImplicit false

namespace GraphExplorer

/-- `LineStyle` from the source: `"solid" | "dashed" | "dotted"`. -/
inductive LineStyle where
  | solid
  | dashed
  | dotted
deriving DecidableEq, Repr

/-- `ArrowStyle` from the source: the cytoscape arrow-shape names. -/
inductive ArrowStyle where
  | triangle
  | triangleTee
  | circleTriangle
  | triangleCross
  | triangleBackcurve
  | tee
  | vee
  | square
  | circle
  | diamond
  | none
deriving DecidableEq, Repr

/-- `EdgePreferences` from the source: a persisted user override for one edge
type.  Every field except `type` is optional (`?:` in TypeScript), embedded
as `Option`.  Number-valued fields are embedded as `Int`. -/
structure EdgePreferences where
  type : String
  displayLabel : Option String := Option.none
  displayNameAttribute : Option String := Option.none
  labelColor : Option String := Option.none
  labelBackgroundOpacity : Option Int := Option.none
  labelBorderColor : Option String := Option.none
  labelBorderStyle : Option LineStyle := Option.none
  labelBorderWidth : Option Int := Option.none
  labelOpacity : Option String := Option.none
  lineColor : Option String := Option.none
  lineThickness : Option Int := Option.none
  lineStyle : Option LineStyle := Option.none
  sourceArrowStyle : Option ArrowStyle := Option.none
  targetArrowStyle : Option ArrowStyle := Option.none
deriving DecidableEq, Repr

/-- Modelled from the spec: `EdgeTypeConfig` is declared in the repository's
configuration provider, which is not among the given source files; §3 of the
spec lists its fields: type id, default label source, line color, line
style, line thickness, source/target arrow style, and label
color/background-opacity/border width/color/style.  All style fields may be
absent. -/
structure EdgeTypeConfig where
  type : String
  displayLabel : Option String := Option.none
  displayNameAttribute : Option String := Option.none
  labelColor : Option String := Option.none
  labelBackgroundOpacity : Option Int := Option.none
  labelBorderColor : Option String := Option.none
  labelBorderStyle : Option LineStyle := Option.none
  labelBorderWidth : Option Int := Option.none
  lineColor : Option String := Option.none
  lineThickness : Option Int := Option.none
  lineStyle : Option LineStyle := Option.none
  sourceArrowStyle : Option ArrowStyle := Option.none
  targetArrowStyle : Option ArrowStyle := Option.none
deriving DecidableEq, Repr

/-- The shape of `mergedConfig = \x7b...etConfig, ...userEdgeStyle\x7d` in
`useGraphStyles`: all fields of the config, with the override's fields
layered on top. -/
structure MergedEdgeStyle where
  type : String
  displayLabel : Option String := Option.none
  displayNameAttribute : Option String := Option.none
  labelColor : Option String := Option.none
  labelBackgroundOpacity : Option Int := Option.none
  labelBorderColor : Option String := Option.none
  labelBorderStyle : Option LineStyle := Option.none
  labelBorderWidth : Option Int := Option.none
  labelOpacity : Option String := Option.none
  lineColor : Option String := Option.none
  lineThickness : Option Int := Option.none
  lineStyle : Option LineStyle := Option.none
  sourceArrowStyle : Option ArrowStyle := Option.none
  targetArrowStyle : Option ArrowStyle := Option.none
deriving DecidableEq, Repr

/-- `const userEdgeStyle = allStyling.edges?.find(edge => edge.type === et)`:
locate the override matching an edge type id. -/
def findUserEdgeStyle (edges : Option (List EdgePreferences)) (et : String) :
    Option EdgePreferences :=
  match edges with
  | Option.none => Option.none
  | Option.some l => l.find? (fun edge => edge.type == et)

/-- `const mergedConfig = \x7b...etConfig, ...userEdgeStyle\x7d`: JavaScript
spread, the override's present fields win field-wise; spreading an absent
override is a no-op. -/
def mergedEdgeStyle (etConfig : EdgeTypeConfig)
    (userEdgeStyle : Option EdgePreferences) : MergedEdgeStyle :=
  match userEdgeStyle with
  | Option.none =>
    { type := etConfig.type
      displayLabel := etConfig.displayLabel
      displayNameAttribute := etConfig.displayNameAttribute
      labelColor := etConfig.labelColor
      labelBackgroundOpacity := etConfig.labelBackgroundOpacity
      labelBorderColor := etConfig.labelBorderColor
      labelBorderStyle := etConfig.labelBorderStyle
      labelBorderWidth := etConfig.labelBorderWidth
      labelOpacity := Option.none
      lineColor := etConfig.lineColor
      lineThickness := etConfig.lineThickness
      lineStyle := etConfig.lineStyle
      sourceArrowStyle := etConfig.sourceArrowStyle
      targetArrowStyle := etConfig.targetArrowStyle }
  | Option.some o =>
    { type := o.type
      displayLabel := Option.or o.displayLabel etConfig.displayLabel
      displayNameAttribute :=
        Option.or o.displayNameAttribute etConfig.displayNameAttribute
      labelColor := Option.or o.labelColor etConfig.labelColor
      labelBackgroundOpacity :=
        Option.or o.labelBackgroundOpacity etConfig.labelBackgroundOpacity
      labelBorderColor := Option.or o.labelBorderColor etConfig.labelBorderColor
      labelBorderStyle := Option.or o.labelBorderStyle etConfig.labelBorderStyle
      labelBorderWidth := Option.or o.labelBorderWidth etConfig.labelBorderWidth
      labelOpacity := o.labelOpacity
      lineColor := Option.or o.lineColor etConfig.lineColor
      lineThickness := Option.or o.lineThickness etConfig.lineThickness
      lineStyle := Option.or o.lineStyle etConfig.lineStyle
      sourceArrowStyle := Option.or o.sourceArrowStyle etConfig.sourceArrowStyle
      targetArrowStyle := Option.or o.targetArrowStyle etConfig.targetArrowStyle }

/-- `LINE_PATTERN` from the source:
`\x7b solid: undefined, dashed: [5, 6], dotted: [1, 2] \x7d`. -/
def LINE_PATTERN : LineStyle → Option (List Nat)
  | LineStyle.solid => Option.none
  | LineStyle.dashed => Option.some [5, 6]
  | LineStyle.dotted => Option.some [1, 2]

/-- Modelled from the spec: `MISSING_DISPLAY_VALUE` is imported from
`@/utils/constants`, which is not among the given source files; the spec
only requires it to be a fixed "missing value" sentinel string. -/
def MISSING_DISPLAY_VALUE : String := "-"

/-- Hexadecimal digit value, `0` for a non-hex character. -/
def hexDigitVal (c : Char) : Nat :=
  if c.isDigit then c.toNat - Char.toNat '0'
  else if 'a' ≤ c ∧ c ≤ 'f' then c.toNat - Char.toNat 'a' + 10
  else if 'A' ≤ c ∧ c ≤ 'F' then c.toNat - Char.toNat 'A' + 10
  else 0

/-- Parse a `#RRGGBB` hex color into its red/green/blue components. -/
def parseHexColor (s : String) : Option (Nat × Nat × Nat) :=
  match s.toList with
  | ['#', r1, r2, g1, g2, b1, b2] =>
    Option.some (16 * hexDigitVal r1 + hexDigitVal r2,
      16 * hexDigitVal g1 + hexDigitVal g2,
      16 * hexDigitVal b1 + hexDigitVal b2)
  | _ => Option.none

/-- Modelled from the spec: `new Color(c).isDark()` comes from the external
`color` library, not from the repository's source; the spec (§4.3) asks for
a standard perceptual-lightness threshold, which the library realises as the
YIQ brightness `(299 r + 587 g + 114 b) / 1000 < 128`. -/
def isDark (s : String) : Bool :=
  match parseHexColor s with
  | Option.some (r, g, b) => 299 * r + 587 * g + 114 * b < 128000
  | Option.none => false

/-- `mergedConfig?.labelColor || "#17457b"`: JavaScript `||` falls through to
the fallback color on both an absent and an empty-string label color. -/
def labelColorOrFallback (labelColor : Option String) : String :=
  match labelColor with
  | Option.some s => if s = "" then "#17457b" else s
  | Option.none => "#17457b"

/-- A display edge as returned by the live `displayEdges` map; only its
`displayName` is consumed here. -/
structure DisplayEdge where
  displayName : String

/-- Rendered edge identifiers (`RenderedEdgeId`), as produced by the canvas. -/
def RenderedEdgeId := String

/-- Logical edge identifiers, the keys of the `displayEdges` map. -/
def EdgeId := String

/-- The label field of an edge rule: the first assignment stores the static
truncated string, the second a deferred resolver closure. -/
inductive EdgeLabel where
  | staticLabel (s : String)
  | resolver (f : RenderedEdgeId → String)

/-- One value of the `styles` object for an `edge[type="T"]` selector.  The
first assignment in the loop sets only `label` and the two distance
constants, so every styling field is optional. -/
structure EdgeRule where
  label : EdgeLabel
  color : Option String := Option.none
  lineColor : Option String := Option.none
  lineStyle : Option LineStyle := Option.none
  lineDashPattern : Option (List Nat) := Option.none
  sourceArrowShape : Option ArrowStyle := Option.none
  sourceArrowColor : Option String := Option.none
  targetArrowShape : Option ArrowStyle := Option.none
  targetArrowColor : Option String := Option.none
  textBackgroundOpacity : Option Int := Option.none
  textBackgroundColor : Option String := Option.none
  textBorderWidth : Option Int := Option.none
  textBorderColor : Option String := Option.none
  textBorderStyle : Option LineStyle := Option.none
  width : Option Int := Option.none
  sourceDistanceFromNode : Nat := 0
  targetDistanceFromNode : Nat := 0

/-- The static default label:
`let label = textTransform(et); if (label.length > 20) label = label.substring(0, 17) + "..."`. -/
def staticEdgeLabel (textTransform : String → String) (et : String) : String :=
  let label := textTransform et
  if label.length > 20 then label.take 17 ++ "..." else label

/-- The first assignment
`styles[edge[type=et]] = \x7b label, source-distance-from-node: 0, target-distance-from-node: 0 \x7d`. -/
def staticEdgeRule (textTransform : String → String) (et : String) : EdgeRule :=
  { label := EdgeLabel.staticLabel (staticEdgeLabel textTransform et) }

/-- The second assignment to `styles[edge[type=et]]`: the full edge rule
built from the merged config, with the label bound as a deferred resolver
over the live `displayEdges` map.  `el.id()` is the rendered edge id the
resolver receives. -/
def buildEdgeRule (displayEdges : EdgeId → Option DisplayEdge)
    (getEdgeIdFromRenderedEdgeId : RenderedEdgeId → EdgeId)
    (mergedConfig : MergedEdgeStyle) : EdgeRule :=
  { label := EdgeLabel.resolver fun el =>
      match displayEdges (getEdgeIdFromRenderedEdgeId el) with
      | Option.some displayEdge => displayEdge.displayName
      | Option.none => MISSING_DISPLAY_VALUE
    color := Option.some
      (if isDark (labelColorOrFallback mergedConfig.labelColor)
        then "#FFFFFF" else "#000000")
    lineColor := mergedConfig.lineColor
    lineStyle := mergedConfig.lineStyle.map fun s =>
      if s = LineStyle.dotted then LineStyle.dashed else s
    lineDashPattern := mergedConfig.lineStyle.bind LINE_PATTERN
    sourceArrowShape := mergedConfig.sourceArrowStyle
    sourceArrowColor := mergedConfig.lineColor
    targetArrowShape := mergedConfig.targetArrowStyle
    targetArrowColor := mergedConfig.lineColor
    textBackgroundOpacity := mergedConfig.labelBackgroundOpacity
    textBackgroundColor := mergedConfig.labelColor
    textBorderWidth := mergedConfig.labelBorderWidth
    textBorderColor := mergedConfig.labelBorderColor
    textBorderStyle := mergedConfig.labelBorderStyle
    width := mergedConfig.lineThickness }

/-- The `styles` object restricted to its edge selectors: an insertion-order
association list from selector strings to edge rules. -/
def StylesMap := List (String × EdgeRule)

/-- `styles[key] = rule`: update in place when the key exists, append
otherwise. -/
def setStyle (styles : StylesMap) (key : String) (rule : EdgeRule) : StylesMap :=
  match styles with
  | [] => [(key, rule)]
  | (k, r) :: rest =>
    if k = key then (key, rule) :: rest else (k, r) :: setStyle rest key rule

/-- `styles[key]` read back. -/
def getStyle (styles : StylesMap) (key : String) : Option EdgeRule :=
  match styles with
  | [] => Option.none
  | (k, r) :: rest => if k = key then Option.some r else getStyle rest key

/-- The selector string `edge[type="et"]`. -/
def edgeSelector (et : String) : String :=
  "edge[type=\"" ++ et ++ "\"]"

/-- The body of the edge loop of `useGraphStyles` for one `etConfig`: find
the user override, assign the static rule, then overwrite the same selector
with the full merged rule. -/
def processEdgeConfig (textTransform : String → String)
    (displayEdges : EdgeId → Option DisplayEdge)
    (getEdgeIdFromRenderedEdgeId : RenderedEdgeId → EdgeId)
    (allStylingEdges : Option (List EdgePreferences))
    (styles : StylesMap) (etConfig : EdgeTypeConfig) : StylesMap :=
  let et := etConfig.type
  let userEdgeStyle := findUserEdgeStyle allStylingEdges et
  let styles₁ := setStyle styles (edgeSelector et)
    (staticEdgeRule textTransform et)
  let mergedConfig := mergedEdgeStyle etConfig userEdgeStyle
  setStyle styles₁ (edgeSelector et)
    (buildEdgeRule displayEdges getEdgeIdFromRenderedEdgeId mergedConfig)

/-- The whole edge loop: fold `processEdgeConfig` over the edge type
configs, starting from the styles accumulated so far. -/
def processEdgeConfigs (textTransform : String → String)
    (displayEdges : EdgeId → Option DisplayEdge)
    (getEdgeIdFromRenderedEdgeId : RenderedEdgeId → EdgeId)
    (allStylingEdges : Option (List EdgePreferences))
    (styles : StylesMap) : List EdgeTypeConfig → StylesMap
  | [] => styles
  | etConfig :: rest =>
    processEdgeConfigs textTransform displayEdges getEdgeIdFromRenderedEdgeId
      allStylingEdges
      (processEdgeConfig textTransform displayEdges getEdgeIdFromRenderedEdgeId
        allStylingEdges styles etConfig)
      rest

/-- `UserStyling` from the source.  The `vertices?: Array<any>` field is
carried by the context but never read or written by the edge-styling code
("We only care about edges in this context"), so only `edges` is embedded. -/
structure UserStyling where
  edges : Option (List EdgePreferences) := Option.none
deriving DecidableEq, Repr

/-- `UpdatedEdgeStyle = Omit<EdgePreferences, "type">`: a partial style
without the type id. -/
structure UpdatedEdgeStyle where
  displayLabel : Option String := Option.none
  displayNameAttribute : Option String := Option.none
  labelColor : Option String := Option.none
  labelBackgroundOpacity : Option Int := Option.none
  labelBorderColor : Option String := Option.none
  labelBorderStyle : Option LineStyle := Option.none
  labelBorderWidth : Option Int := Option.none
  labelOpacity : Option String := Option.none
  lineColor : Option String := Option.none
  lineThickness : Option Int := Option.none
  lineStyle : Option LineStyle := Option.none
  sourceArrowStyle : Option ArrowStyle := Option.none
  targetArrowStyle : Option ArrowStyle := Option.none
deriving DecidableEq, Repr

/-- `\x7b...existing, ...updatedStyle\x7d` inside `setEdgeStyle`: shallow
merge of the update into an existing entry, the update's present fields
winning; `type` is kept from the existing entry since the update has none. -/
def mergeEdgeStyle (existing : EdgePreferences) (updatedStyle : UpdatedEdgeStyle) :
    EdgePreferences :=
  { type := existing.type
    displayLabel := Option.or updatedStyle.displayLabel existing.displayLabel
    displayNameAttribute :=
      Option.or updatedStyle.displayNameAttribute existing.displayNameAttribute
    labelColor := Option.or updatedStyle.labelColor existing.labelColor
    labelBackgroundOpacity :=
      Option.or updatedStyle.labelBackgroundOpacity existing.labelBackgroundOpacity
    labelBorderColor :=
      Option.or updatedStyle.labelBorderColor existing.labelBorderColor
    labelBorderStyle :=
      Option.or updatedStyle.labelBorderStyle existing.labelBorderStyle
    labelBorderWidth :=
      Option.or updatedStyle.labelBorderWidth existing.labelBorderWidth
    labelOpacity := Option.or updatedStyle.labelOpacity existing.labelOpacity
    lineColor := Option.or updatedStyle.lineColor existing.lineColor
    lineThickness := Option.or updatedStyle.lineThickness existing.lineThickness
    lineStyle := Option.or updatedStyle.lineStyle existing.lineStyle
    sourceArrowStyle :=
      Option.or updatedStyle.sourceArrowStyle existing.sourceArrowStyle
    targetArrowStyle :=
      Option.or updatedStyle.targetArrowStyle existing.targetArrowStyle }

/-- `\x7btype, ...updatedStyle\x7d`: the freshly appended entry when no
entry for the type exists yet. -/
def newEdgeEntry (type : String) (updatedStyle : UpdatedEdgeStyle) :
    EdgePreferences :=
  { type := type
    displayLabel := updatedStyle.displayLabel
    displayNameAttribute := updatedStyle.displayNameAttribute
    labelColor := updatedStyle.labelColor
    labelBackgroundOpacity := updatedStyle.labelBackgroundOpacity
    labelBorderColor := updatedStyle.labelBorderColor
    labelBorderStyle := updatedStyle.labelBorderStyle
    labelBorderWidth := updatedStyle.labelBorderWidth
    labelOpacity := updatedStyle.labelOpacity
    lineColor := updatedStyle.lineColor
    lineThickness := updatedStyle.lineThickness
    lineStyle := updatedStyle.lineStyle
    sourceArrowStyle := updatedStyle.sourceArrowStyle
    targetArrowStyle := updatedStyle.targetArrowStyle }

/-- `const edgeStyle = allStyling.edges?.find(v => v.type === type)`: the
`get` operation of `useEdgeStyling`. -/
def edgeStyleOf (allStyling : UserStyling) (type : String) :
    Option EdgePreferences :=
  findUserEdgeStyle allStyling.edges type

/-- The updater passed to `setAllStyling` by `setEdgeStyle`: merge into
every existing entry of the type when one exists, append a new entry
otherwise. -/
def setEdgeStyleUpdater (type : String) (updatedStyle : UpdatedEdgeStyle)
    (prev : UserStyling) : UserStyling :=
  let hasEntry :=
    match prev.edges with
    | Option.none => false
    | Option.some l => l.any (fun v => v.type == type)
  if hasEntry then
    { prev with
      edges := prev.edges.map fun l =>
        l.map fun existing =>
          if existing.type == type then mergeEdgeStyle existing updatedStyle
          else existing }
  else
    { prev with
      edges := Option.some
        ((prev.edges.getD []) ++ [newEdgeEntry type updatedStyle]) }

/-- The updater passed to `setAllStyling` by `resetEdgeStyle`: filter out
every entry of the type. -/
def resetEdgeStyleUpdater (type : String) (prev : UserStyling) : UserStyling :=
  { prev with
    edges := prev.edges.map fun l => l.filter fun v => !(v.type == type) }

/-- The observable state of the `EdgeStylingProvider`: the in-memory
styling, the loading flag, the write log of every `localForage.setItem`
issued by the save effect, and whether a load error was logged. -/
structure StoreState where
  allStyling : UserStyling
  isLoading : Bool
  writeLog : List UserStyling
  loadErrorLogged : Bool
deriving DecidableEq, Repr

/-- `useState<UserStyling>(\x7b\x7d)` and `useState(true)`: the provider
mounts with empty styling, loading, nothing written, nothing logged. -/
def initStoreState : StoreState :=
  { allStyling := {}
    isLoading := true
    writeLog := []
    loadErrorLogged := false }

/-- Events driving the provider: a mutation through `setAllStyling`, the
initial `localForage.getItem` resolving (with the stored record or `null`),
or that read rejecting. -/
inductive StoreEvent where
  | mutate (updater : UserStyling → UserStyling)
  | loadResolved (stored : Option UserStyling)
  | loadRejected

/-- The save effect
`useEffect(() => \x7b if (!isLoading) localForage.setItem(...) \x7d, [allStyling, isLoading])`:
it re-runs after every event below (each one changes a dependency — a
mutation always produces a fresh object via `clone`, and a load completion
flips `isLoading`) and issues a durable write of the current styling unless
the store is still loading. -/
def runSaveEffect (s : StoreState) : StoreState :=
  if s.isLoading then s
  else { s with writeLog := s.writeLog ++ [s.allStyling] }

/-- One step of the provider.  `mutate` applies the updater to the in-memory
state; `loadResolved` installs the stored record when present
(`if (stored) setAllStylingState(stored)`) and clears `isLoading` in the
`finally`; `loadRejected` logs the error and clears `isLoading` in the
`finally`.  Each step ends with the save effect re-running. -/
def step (s : StoreState) : StoreEvent → StoreState
  | StoreEvent.mutate updater =>
    runSaveEffect { s with allStyling := updater s.allStyling }
  | StoreEvent.loadResolved stored =>
    let s₁ :=
      match stored with
      | Option.some v => { s with allStyling := v }
      | Option.none => s
    runSaveEffect { s₁ with isLoading := false }
  | StoreEvent.loadRejected =>
    runSaveEffect { s with loadErrorLogged := true, isLoading := false }

/-- A whole trace of provider events, applied in order. -/
def applyEvents (s : StoreState) (events : List StoreEvent) : StoreState :=
  events.foldl step s

/-! ## Helper lemmas -/

theorem step_mutate_of_loading (s : StoreState)
    (updater : UserStyling → UserStyling) (h : s.isLoading = true) :
    step s (StoreEvent.mutate updater) =
      { s with allStyling := updater s.allStyling } := by
  simp [step, runSaveEffect, h]

theorem option_or_eq_match {α : Type} (a b : Option α) :
    Option.or a b =
      match a with
      | Option.some v => Option.some v
      | Option.none => b := by
  cases a <;> rfl

/-! ## Claim theorems -/

/-- C1: for every `EdgeTypeConfig` and every stylable field, the merged edge
style used to build the edge rule takes the matching override's field when
the override exists and defines it, and the config's field otherwise (the
override leaves the field absent, or no override matches). -/
theorem c1_field_precedence (etConfig : EdgeTypeConfig)
    (edges : Option (List EdgePreferences)) :
    (∀ o, findUserEdgeStyle edges etConfig.type = Option.some o →
      (∀ v, o.labelColor = Option.some v →
        (mergedEdgeStyle etConfig (findUserEdgeStyle edges etConfig.type)).labelColor = Option.some v) ∧
      (o.labelColor = Option.none →
        (mergedEdgeStyle etConfig (findUserEdgeStyle edges etConfig.type)).labelColor = etConfig.labelColor) ∧
      (∀ v, o.labelBackgroundOpacity = Option.some v →
        (mergedEdgeStyle etConfig (findUserEdgeStyle edges etConfig.type)).labelBackgroundOpacity = Option.some v) ∧
      (o.labelBackgroundOpacity = Option.none →
        (mergedEdgeStyle etConfig (findUserEdgeStyle edges etConfig.type)).labelBackgroundOpacity = etConfig.labelBackgroundOpacity) ∧
      (∀ v, o.labelBorderColor = Option.some v →
        (mergedEdgeStyle etConfig (findUserEdgeStyle edges etConfig.type)).labelBorderColor = Option.some v) ∧
      (o.labelBorderColor = Option.none →
        (mergedEdgeStyle etConfig (findUserEdgeStyle edges etConfig.type)).labelBorderColor = etConfig.labelBorderColor) ∧
      (∀ v, o.labelBorderStyle = Option.some v →
        (mergedEdgeStyle etConfig (findUserEdgeStyle edges etConfig.type)).labelBorderStyle = Option.some v) ∧
      (o.labelBorderStyle = Option.none →
        (mergedEdgeStyle etConfig (findUserEdgeStyle edges etConfig.type)).labelBorderStyle = etConfig.labelBorderStyle) ∧
      (∀ v, o.labelBorderWidth = Option.some v →
        (mergedEdgeStyle etConfig (findUserEdgeStyle edges etConfig.type)).labelBorderWidth = Option.some v) ∧
      (o.labelBorderWidth = Option.none →
        (mergedEdgeStyle etConfig (findUserEdgeStyle edges etConfig.type)).labelBorderWidth = etConfig.labelBorderWidth) ∧
      (∀ v, o.lineColor = Option.some v →
        (mergedEdgeStyle etConfig (findUserEdgeStyle edges etConfig.type)).lineColor = Option.some v) ∧
      (o.lineColor = Option.none →
        (mergedEdgeStyle etConfig (findUserEdgeStyle edges etConfig.type)).lineColor = etConfig.lineColor) ∧
      (∀ v, o.lineThickness = Option.some v →
        (mergedEdgeStyle etConfig (findUserEdgeStyle edges etConfig.type)).lineThickness = Option.some v) ∧
      (o.lineThickness = Option.none →
        (mergedEdgeStyle etConfig (findUserEdgeStyle edges etConfig.type)).lineThickness = etConfig.lineThickness) ∧
      (∀ v, o.lineStyle = Option.some v →
        (mergedEdgeStyle etConfig (findUserEdgeStyle edges etConfig.type)).lineStyle = Option.some v) ∧
      (o.lineStyle = Option.none →
        (mergedEdgeStyle etConfig (findUserEdgeStyle edges etConfig.type)).lineStyle = etConfig.lineStyle) ∧
      (∀ v, o.sourceArrowStyle = Option.some v →
        (mergedEdgeStyle etConfig (findUserEdgeStyle edges etConfig.type)).sourceArrowStyle = Option.some v) ∧
      (o.sourceArrowStyle = Option.none →
        (mergedEdgeStyle etConfig (findUserEdgeStyle edges etConfig.type)).sourceArrowStyle = etConfig.sourceArrowStyle) ∧
      (∀ v, o.targetArrowStyle = Option.some v →
        (mergedEdgeStyle etConfig (findUserEdgeStyle edges etConfig.type)).targetArrowStyle = Option.some v) ∧
      (o.targetArrowStyle = Option.none →
        (mergedEdgeStyle etConfig (findUserEdgeStyle edges etConfig.type)).targetArrowStyle = etConfig.targetArrowStyle)) ∧
    (findUserEdgeStyle edges etConfig.type = Option.none →
      (mergedEdgeStyle etConfig (findUserEdgeStyle edges etConfig.type)).labelColor = etConfig.labelColor ∧
      (mergedEdgeStyle etConfig (findUserEdgeStyle edges etConfig.type)).labelBackgroundOpacity = etConfig.labelBackgroundOpacity ∧
      (mergedEdgeStyle etConfig (findUserEdgeStyle edges etConfig.type)).labelBorderColor = etConfig.labelBorderColor ∧
      (mergedEdgeStyle etConfig (findUserEdgeStyle edges etConfig.type)).labelBorderStyle = etConfig.labelBorderStyle ∧
      (mergedEdgeStyle etConfig (findUserEdgeStyle edges etConfig.type)).labelBorderWidth = etConfig.labelBorderWidth ∧
      (mergedEdgeStyle etConfig (findUserEdgeStyle edges etConfig.type)).lineColor = etConfig.lineColor ∧
      (mergedEdgeStyle etConfig (findUserEdgeStyle edges etConfig.type)).lineThickness = etConfig.lineThickness ∧
      (mergedEdgeStyle etConfig (findUserEdgeStyle edges etConfig.type)).lineStyle = etConfig.lineStyle ∧
      (mergedEdgeStyle etConfig (findUserEdgeStyle edges etConfig.type)).sourceArrowStyle = etConfig.sourceArrowStyle ∧
      (mergedEdgeStyle etConfig (findUserEdgeStyle edges etConfig.type)).targetArrowStyle = etConfig.targetArrowStyle) := by
  constructor
  · intro o h
    rw [h]
    simp only [mergedEdgeStyle]
    refine ⟨?_, ?_, ?_, ?_, ?_, ?_, ?_, ?_, ?_, ?_, ?_, ?_, ?_, ?_, ?_, ?_,
      ?_, ?_, ?_, ?_⟩ <;>
      · intros
        rename_i h'
        rw [h']
        rfl
  · intro h
    rw [h]
    exact ⟨rfl, rfl, rfl, rfl, rfl, rfl, rfl, rfl, rfl, rfl⟩

/-- Witness for C1: an override defining only `lineThickness` wins that
field while `lineColor` is inherited from the config. -/
theorem c1_field_precedence_witness :
    (mergedEdgeStyle
      { type := "knows", lineColor := Option.some "#000000",
        lineThickness := Option.some 1 }
      (findUserEdgeStyle
        (Option.some [{ type := "knows", lineThickness := Option.some 4 }])
        (EdgeTypeConfig.type
          { type := "knows", lineColor := Option.some "#000000",
            lineThickness := Option.some 1 }))).lineThickness = Option.some 4 ∧
    (mergedEdgeStyle
      { type := "knows", lineColor := Option.some "#000000",
        lineThickness := Option.some 1 }
      (findUserEdgeStyle
        (Option.some [{ type := "knows", lineThickness := Option.some 4 }])
        (EdgeTypeConfig.type
          { type := "knows", lineColor := Option.some "#000000",
            lineThickness := Option.some 1 }))).lineColor =
      Option.some "#000000" := by
  obtain ⟨hov, -⟩ := c1_field_precedence
    { type := "knows", lineColor := Option.some "#000000",
      lineThickness := Option.some 1 }
    (Option.some [{ type := "knows", lineThickness := Option.some 4 }])
  obtain ⟨-, -, -, -, -, -, -, -, -, -, -, hlc, hlt, -⟩ :=
    hov { type := "knows", lineThickness := Option.some 4 } rfl
  exact ⟨hlt 4 rfl, hlc rfl⟩

/-- C2: the edge rule built from a merged edge style maps line style
`dotted` to rendered line-style `dashed` with dash pattern `[1, 2]`,
`dashed` to `dashed` with pattern `[5, 6]`, and `solid` to `solid` with no
dash pattern. -/
theorem c2_line_style_normalization (displayEdges : EdgeId → Option DisplayEdge)
    (getEdgeId : RenderedEdgeId → EdgeId) (m : MergedEdgeStyle) :
    (m.lineStyle = Option.some LineStyle.dotted →
      (buildEdgeRule displayEdges getEdgeId m).lineStyle =
        Option.some LineStyle.dashed ∧
      (buildEdgeRule displayEdges getEdgeId m).lineDashPattern =
        Option.some [1, 2]) ∧
    (m.lineStyle = Option.some LineStyle.dashed →
      (buildEdgeRule displayEdges getEdgeId m).lineStyle =
        Option.some LineStyle.dashed ∧
      (buildEdgeRule displayEdges getEdgeId m).lineDashPattern =
        Option.some [5, 6]) ∧
    (m.lineStyle = Option.some LineStyle.solid →
      (buildEdgeRule displayEdges getEdgeId m).lineStyle =
        Option.some LineStyle.solid ∧
      (buildEdgeRule displayEdges getEdgeId m).lineDashPattern = Option.none) := by
  refine ⟨fun h => ?_, fun h => ?_, fun h => ?_⟩ <;>
    simp [buildEdgeRule, h, LINE_PATTERN]

/-- Witness for C2 at a concrete dotted merged style. -/
theorem c2_line_style_normalization_witness :
    (buildEdgeRule (fun _ => Option.none) (fun e => e)
      { type := "knows", lineStyle := Option.some LineStyle.dotted }).lineStyle =
      Option.some LineStyle.dashed ∧
    (buildEdgeRule (fun _ => Option.none) (fun e => e)
      { type := "knows", lineStyle := Option.some LineStyle.dotted }).lineDashPattern =
      Option.some [1, 2] :=
  (c2_line_style_normalization (fun _ => Option.none) (fun e => e)
    { type := "knows", lineStyle := Option.some LineStyle.dotted }).1 rfl

/-- C3: the static default label of an edge type is the transformed type id
unchanged when its length is at most 20, and its first 17 characters
followed by `"..."` when its length exceeds 20. -/
theorem c3_static_label_truncation (textTransform : String → String) (T : String) :
    ((textTransform T).length ≤ 20 →
      staticEdgeLabel textTransform T = textTransform T) ∧
    (20 < (textTransform T).length →
      staticEdgeLabel textTransform T = (textTransform T).take 17 ++ "...") := by
  refine ⟨fun h => ?_, fun h => ?_⟩
  · simp only [staticEdgeLabel]
    rw [if_neg (by omega)]
  · simp only [staticEdgeLabel]
    rw [if_pos (by omega)]

/-- Witness for C3: a 21-character transformed label is truncated to its
first 17 characters plus the ellipsis, a short one is unchanged. -/
theorem c3_static_label_truncation_witness :
    staticEdgeLabel (fun s => s) "abcdefghijklmnopqrstu" = "abcdefghijklmnopq..." ∧
    staticEdgeLabel (fun s => s) "knows" = "knows" := by
  constructor
  · rw [(c3_static_label_truncation (fun s => s) "abcdefghijklmnopqrstu").2
      (by decide)]
    decide
  · exact (c3_static_label_truncation (fun s => s) "knows").1 (by decide)

/-- C10: when the merged label color is absent or the empty string, the
rule's text color is decided from the fallback color `"#17457b"`, which is
dark, so the text color is `"#FFFFFF"`; the same rule's text-background
color receives the merged label color verbatim (including the empty
string), so the two can disagree. -/
theorem c10_falsy_label_color (displayEdges : EdgeId → Option DisplayEdge)
    (getEdgeId : RenderedEdgeId → EdgeId) (m : MergedEdgeStyle)
    (h : m.labelColor = Option.none ∨ m.labelColor = Option.some "") :
    (buildEdgeRule displayEdges getEdgeId m).color = Option.some "#FFFFFF" ∧
    (buildEdgeRule displayEdges getEdgeId m).textBackgroundColor = m.labelColor := by
  have hdark : isDark "#17457b" = true := by decide
  rcases h with h | h <;> simp [buildEdgeRule, labelColorOrFallback, h, hdark]

/-- Witness for C10 at the empty-string label color: the contrast decision
uses the dark fallback while the background color stays the empty string. -/
theorem c10_falsy_label_color_witness :
    (buildEdgeRule (fun _ => Option.none) (fun e => e)
      { type := "knows", labelColor := Option.some "" }).color =
      Option.some "#FFFFFF" ∧
    (buildEdgeRule (fun _ => Option.none) (fun e => e)
      { type := "knows", labelColor := Option.some "" }).textBackgroundColor =
      Option.some "" :=
  c10_falsy_label_color (fun _ => Option.none) (fun e => e)
    { type := "knows", labelColor := Option.some "" } (Or.inr rfl)

/-- A run of mutations only, started while loading, never writes. -/
theorem writeLog_mutations_of_loading
    (updaters : List (UserStyling → UserStyling)) :
    ∀ s : StoreState, s.isLoading = true →
      (applyEvents s (updaters.map StoreEvent.mutate)).writeLog = s.writeLog := by
  induction updaters with
  | nil => intro s _; rfl
  | cons u rest ih =>
    intro s h
    show (applyEvents (step s (StoreEvent.mutate u))
      (rest.map StoreEvent.mutate)).writeLog = s.writeLog
    rw [step_mutate_of_loading s u h]
    exact ih _ h

/-- C5: a mutation applied while the store is still loading updates the
in-memory styling immediately, keeps the store loading, and issues no
durable write — and no run of mutations does, while the store stays in
the loading state. -/
theorem c5_loading_mutation_suppresses_write (s : StoreState)
    (updater : UserStyling → UserStyling) (h : s.isLoading = true) :
    (step s (StoreEvent.mutate updater)).allStyling = updater s.allStyling ∧
    (step s (StoreEvent.mutate updater)).isLoading = true ∧
    (step s (StoreEvent.mutate updater)).writeLog = s.writeLog ∧
    ∀ updaters : List (UserStyling → UserStyling),
      (applyEvents s (updaters.map StoreEvent.mutate)).writeLog = s.writeLog := by
  refine ⟨?_, ?_, ?_, fun updaters => writeLog_mutations_of_loading updaters s h⟩
  · rw [step_mutate_of_loading s updater h]
  · rw [step_mutate_of_loading s updater h]
    exact h
  · rw [step_mutate_of_loading s updater h]

/-- Witness for C5: a mutation on the freshly mounted (still loading)
provider changes the styling but writes nothing. -/
theorem c5_loading_mutation_suppresses_write_witness :
    (step initStoreState
      (StoreEvent.mutate
        (setEdgeStyleUpdater "knows" { lineThickness := Option.some 4 }))).allStyling =
      { edges := Option.some [{ type := "knows", lineThickness := Option.some 4 }] } ∧
    (step initStoreState
      (StoreEvent.mutate
        (setEdgeStyleUpdater "knows" { lineThickness := Option.some 4 }))).writeLog = [] := by
  have hc := c5_loading_mutation_suppresses_write initStoreState
    (setEdgeStyleUpdater "knows" { lineThickness := Option.some 4 }) rfl
  refine ⟨?_, hc.2.2.1⟩
  rw [hc.1]
  decide

/-- C6 is corrected by this counterexample: with one pre-Ready mutation and
a load that finds no stored record, the write log is still empty just
before the load settles, yet the very transition to Ready appends a durable
write — carrying the pre-Ready mutation — before any subsequent mutation. -/
theorem c6_ready_transition_counterexample :
    (step initStoreState
      (StoreEvent.mutate
        (setEdgeStyleUpdater "knows" { lineThickness := Option.some 4 }))).writeLog = [] ∧
    (step (step initStoreState
        (StoreEvent.mutate
          (setEdgeStyleUpdater "knows" { lineThickness := Option.some 4 })))
      (StoreEvent.loadResolved Option.none)).isLoading = false ∧
    (step (step initStoreState
        (StoreEvent.mutate
          (setEdgeStyleUpdater "knows" { lineThickness := Option.some 4 })))
      (StoreEvent.loadResolved Option.none)).writeLog =
      [{ edges := Option.some [{ type := "knows", lineThickness := Option.some 4 }] }] := by
  refine ⟨rfl, rfl, ?_⟩
  decide

/-- C6 amended: the transition to Ready itself issues a durable write (the
save effect re-runs when the loading flag flips), carrying the then-current
in-memory state — the loaded record when one was found, otherwise the
in-memory state including any pre-Ready mutations; after that, every
mutation issues a durable write carrying the then-current in-memory
state. -/
theorem c6_ready_transition_write (s : StoreState) :
    ((step s (StoreEvent.loadResolved Option.none)).writeLog =
      s.writeLog ++ [s.allStyling]) ∧
    (∀ stored, (step s (StoreEvent.loadResolved (Option.some stored))).writeLog =
      s.writeLog ++ [stored]) ∧
    ((step s StoreEvent.loadRejected).writeLog = s.writeLog ++ [s.allStyling]) ∧
    (∀ updater, s.isLoading = false →
      (step s (StoreEvent.mutate updater)).writeLog =
        s.writeLog ++ [updater s.allStyling]) := by
  refine ⟨rfl, fun stored => rfl, rfl, fun updater h => ?_⟩
  simp [step, runSaveEffect, h]

/-- Witness for C6 (amended): once the store is Ready, a mutation appends a
durable write of the updated state. -/
theorem c6_ready_transition_write_witness :
    (step (step initStoreState (StoreEvent.loadResolved Option.none))
      (StoreEvent.mutate
        (setEdgeStyleUpdater "knows" { lineThickness := Option.some 4 }))).writeLog =
    (step initStoreState (StoreEvent.loadResolved Option.none)).writeLog ++
      [setEdgeStyleUpdater "knows" { lineThickness := Option.some 4 }
        (step initStoreState (StoreEvent.loadResolved Option.none)).allStyling] :=
  (c6_ready_transition_write
    (step initStoreState (StoreEvent.loadResolved Option.none))).2.2.2
    (setEdgeStyleUpdater "knows" { lineThickness := Option.some 4 }) rfl

/-- C8: a failed durable load is logged, leaves the in-memory overrides
untouched (still the empty default when starting from the initial state),
and still moves the store out of loading — load failure is never fatal and
never leaves the store stuck. -/
theorem c8_load_failure_reaches_ready (s : StoreState) :
    (step s StoreEvent.loadRejected).loadErrorLogged = true ∧
    (step s StoreEvent.loadRejected).allStyling = s.allStyling ∧
    (step s StoreEvent.loadRejected).isLoading = false ∧
    (step initStoreState StoreEvent.loadRejected).allStyling =
      { edges := Option.none } := by
  exact ⟨rfl, rfl, rfl, rfl⟩

theorem mergeEdgeStyle_type (e : EdgePreferences) (u : UpdatedEdgeStyle) :
    (mergeEdgeStyle e u).type = e.type := rfl

theorem newEdgeEntry_type (type : String) (u : UpdatedEdgeStyle) :
    (newEdgeEntry type u).type = type := rfl

/-- Mapping the upsert merge over a list commutes with finding the entry of
the upserted type. -/
theorem find_map_merge (l : List EdgePreferences) (type : String)
    (u : UpdatedEdgeStyle) :
    (l.map fun existing =>
      if existing.type == type then mergeEdgeStyle existing u else existing).find?
        (fun v => v.type == type) =
      (l.find? fun v => v.type == type).map fun e => mergeEdgeStyle e u := by
  induction l with
  | nil => rfl
  | cons e rest ih =>
    by_cases he : (e.type == type) = true
    · have hmerge : ((mergeEdgeStyle e u).type == type) = true := by
        rw [mergeEdgeStyle_type]
        exact he
      rw [List.map_cons, if_pos he,
        @List.find?_cons_of_pos _ (fun v => v.type == type)
          (mergeEdgeStyle e u) _ hmerge,
        @List.find?_cons_of_pos _ (fun v => v.type == type) e _ he]
      rfl
    · rw [List.map_cons, if_neg he,
        @List.find?_cons_of_neg _ (fun v => v.type == type) e _ he,
        @List.find?_cons_of_neg _ (fun v => v.type == type) e _ he, ih]

/-- Appending a fresh entry to a list with no entry of its type makes the
fresh entry the one found for that type. -/
theorem find_append_new (l : List EdgePreferences) (type : String)
    (u : UpdatedEdgeStyle) (h : l.any (fun v => v.type == type) = false) :
    (l ++ [newEdgeEntry type u]).find? (fun v => v.type == type) =
      Option.some (newEdgeEntry type u) := by
  induction l with
  | nil =>
    rw [List.nil_append]
    exact List.find?_cons_of_pos _ (by rw [newEdgeEntry_type]; exact beq_self_eq_true type)
  | cons e rest ih =>
    simp only [List.any_cons, Bool.or_eq_false_iff] at h
    rw [List.cons_append,
      List.find?_cons_of_neg _ (by rw [h.1]; exact Bool.false_ne_true), ih h.2]

/-- Filtering a type out of a list leaves nothing of that type to find. -/
theorem find_filter_ne (l : List EdgePreferences) (type : String) :
    (l.filter fun v => !(v.type == type)).find? (fun v => v.type == type) =
      Option.none := by
  rw [List.find?_eq_none]
  intro x hx
  have hq := List.of_mem_filter hx
  simp only [Bool.not_eq_true'] at hq
  simp [hq]

/-- A found entry certifies that some entry of the type exists. -/
theorem any_of_find (l : List EdgePreferences) (type : String)
    (e : EdgePreferences) (h : l.find? (fun v => v.type == type) = Option.some e) :
    l.any (fun v => v.type == type) = true := by
  rw [List.any_eq_true]
  have hsome : (l.find? (fun v => v.type == type)).isSome = true := by
    rw [h]
    rfl
  exact List.find?_isSome.mp hsome

/-- The upsert on a present list with a matching entry merges in place. -/
theorem setEdgeStyleUpdater_merges (l : List EdgePreferences) (type : String)
    (S : UpdatedEdgeStyle) (hany : l.any (fun v => v.type == type) = true) :
    setEdgeStyleUpdater type S { edges := Option.some l } =
      { edges := Option.some (l.map fun existing =>
          if existing.type == type then mergeEdgeStyle existing S
          else existing) } := by
  simp [setEdgeStyleUpdater, hany]

/-- The upsert on a list with no matching entry appends the new entry. -/
theorem setEdgeStyleUpdater_appends (l : List EdgePreferences) (type : String)
    (S : UpdatedEdgeStyle) (hany : l.any (fun v => v.type == type) = false) :
    setEdgeStyleUpdater type S { edges := Option.some l } =
      { edges := Option.some (l ++ [newEdgeEntry type S]) } := by
  simp [setEdgeStyleUpdater, hany]

/-- The reset on a present list filters the type's entries out. -/
theorem resetEdgeStyleUpdater_filters (l : List EdgePreferences) (type : String) :
    resetEdgeStyleUpdater type { edges := Option.some l } =
      { edges := Option.some (l.filter fun v => !(v.type == type)) } := by
  simp [resetEdgeStyleUpdater]

/-- C7: upserting a partial style for a type and reading that type back
returns the partial style shallow-merged over the prior entry when one
existed (the partial style's fields winning), and the new entry built from
the partial style when none did; resetting a type and reading it back
returns absent. -/
theorem c7_upsert_get_reset_get (prev : UserStyling) (type : String)
    (S : UpdatedEdgeStyle) :
    (∀ existing, edgeStyleOf prev type = Option.some existing →
      edgeStyleOf (setEdgeStyleUpdater type S prev) type =
        Option.some (mergeEdgeStyle existing S)) ∧
    (edgeStyleOf prev type = Option.none →
      edgeStyleOf (setEdgeStyleUpdater type S prev) type =
        Option.some (newEdgeEntry type S)) ∧
    edgeStyleOf (resetEdgeStyleUpdater type prev) type = Option.none := by
  obtain ⟨pedges⟩ := prev
  rcases pedges with _ | l
  · refine ⟨fun existing h => Option.noConfusion h, fun _ => ?_, rfl⟩
    show ([] ++ [newEdgeEntry type S]).find? (fun v => v.type == type) =
      Option.some (newEdgeEntry type S)
    exact find_append_new [] type S rfl
  · refine ⟨fun existing h => ?_, fun h => ?_, ?_⟩
    · have h' : l.find? (fun v => v.type == type) = Option.some existing := h
      have hany := any_of_find l type existing h'
      rw [setEdgeStyleUpdater_merges l type S hany]
      show (l.map fun existing =>
        if existing.type == type then mergeEdgeStyle existing S
        else existing).find? (fun v => v.type == type) =
          Option.some (mergeEdgeStyle existing S)
      rw [find_map_merge, h']
      rfl
    · have h' : l.find? (fun v => v.type == type) = Option.none := h
      have hany : l.any (fun v => v.type == type) = false := by
        rw [List.any_eq_false]
        intro x hx
        exact List.find?_eq_none.mp h' x hx
      rw [setEdgeStyleUpdater_appends l type S hany]
      show (l ++ [newEdgeEntry type S]).find? (fun v => v.type == type) =
        Option.some (newEdgeEntry type S)
      exact find_append_new l type S hany
    · rw [resetEdgeStyleUpdater_filters l type]
      show (l.filter fun v => !(v.type == type)).find?
        (fun v => v.type == type) = Option.none
      exact find_filter_ne l type

/-- Witness for C7: upserting over an existing entry merges the fields, and
resetting removes the entry. -/
theorem c7_upsert_get_reset_get_witness :
    edgeStyleOf
      (setEdgeStyleUpdater "knows" { lineThickness := Option.some 4 }
        { edges :=
            Option.some
              [{ type := "knows", lineColor := Option.some "#000000",
                 lineThickness := Option.some 1 }] }) "knows" =
      Option.some
        { type := "knows", lineColor := Option.some "#000000",
          lineThickness := Option.some 4 } ∧
    edgeStyleOf
      (resetEdgeStyleUpdater "knows"
        { edges :=
            Option.some
              [{ type := "knows", lineColor := Option.some "#000000",
                 lineThickness := Option.some 1 }] }) "knows" =
      Option.none := by
  have hc := c7_upsert_get_reset_get
    { edges :=
        Option.some
          [{ type := "knows", lineColor := Option.some "#000000",
             lineThickness := Option.some 1 }] }
    "knows" { lineThickness := Option.some 4 }
  refine ⟨?_, hc.2.2⟩
  rw [hc.1
    { type := "knows", lineColor := Option.some "#000000",
      lineThickness := Option.some 1 } (by decide)]
  decide

/-- The upsert merge map leaves the sequence of type ids unchanged. -/
theorem map_type_upsert (l : List EdgePreferences) (type : String)
    (u : UpdatedEdgeStyle) :
    (l.map fun existing =>
      if existing.type == type then mergeEdgeStyle existing u else existing).map
        EdgePreferences.type = l.map EdgePreferences.type := by
  rw [List.map_map]
  apply List.map_congr_left
  intro e _
  by_cases h : (e.type == type) = true
  · show (if (e.type == type) = true then mergeEdgeStyle e u else e).type = e.type
    rw [if_pos h, mergeEdgeStyle_type]
  · show (if (e.type == type) = true then mergeEdgeStyle e u else e).type = e.type
    rw [if_neg h]

/-- C9: if the override list holds at most one entry per type id, it still
does after any upsert (which merges into the existing entries of the type
rather than appending a duplicate) and after any reset. -/
theorem c9_type_id_uniqueness_preserved (prev : UserStyling) (type : String)
    (S : UpdatedEdgeStyle)
    (h : (((prev.edges.getD []).map EdgePreferences.type)).Nodup) :
    ((((setEdgeStyleUpdater type S prev).edges.getD []).map
      EdgePreferences.type)).Nodup ∧
    ((((resetEdgeStyleUpdater type prev).edges.getD []).map
      EdgePreferences.type)).Nodup := by
  obtain ⟨pedges⟩ := prev
  rcases pedges with _ | l
  · constructor
    · show (([] ++ [newEdgeEntry type S]).map EdgePreferences.type).Nodup
      exact List.nodup_singleton _
    · exact List.nodup_nil
  · have hl : (((⟨Option.some l⟩ : UserStyling).edges.getD []).map
      EdgePreferences.type).Nodup := h
    have hl' : (l.map EdgePreferences.type).Nodup := hl
    constructor
    · cases hany : l.any (fun v => v.type == type) with
      | true =>
        rw [setEdgeStyleUpdater_merges l type S hany]
        show ((l.map fun existing =>
          if existing.type == type then mergeEdgeStyle existing S
          else existing).map EdgePreferences.type).Nodup
        rw [map_type_upsert]
        exact hl'
      | false =>
        have hnotin : type ∉ l.map EdgePreferences.type := by
          intro hmem
          obtain ⟨v, hv, hvt⟩ := List.mem_map.mp hmem
          have hfalse := List.any_eq_false.mp hany v hv
          rw [hvt] at hfalse
          exact hfalse (beq_self_eq_true type)
        rw [setEdgeStyleUpdater_appends l type S hany]
        show ((l ++ [newEdgeEntry type S]).map EdgePreferences.type).Nodup
        rw [List.map_append]
        rw [List.nodup_append]
        refine ⟨hl', List.nodup_singleton _, ?_⟩
        intro a ha hb
        have hat : a = type := by
          simpa [newEdgeEntry_type] using hb
        exact hnotin (hat ▸ ha)
    · rw [resetEdgeStyleUpdater_filters l type]
      show ((l.filter fun v => !(v.type == type)).map EdgePreferences.type).Nodup
      exact hl'.sublist (List.Sublist.map EdgePreferences.type
        (List.filter_sublist l))

/-- Witness for C9 at a concrete two-entry override list. -/
theorem c9_type_id_uniqueness_preserved_witness :
    ((((setEdgeStyleUpdater "a" { lineThickness := Option.some 4 }
      { edges := Option.some [{ type := "a" }, { type := "b" }] }).edges.getD
        []).map EdgePreferences.type)).Nodup ∧
    ((((resetEdgeStyleUpdater "a"
      { edges := Option.some [{ type := "a" }, { type := "b" }] }).edges.getD
        []).map EdgePreferences.type)).Nodup :=
  c9_type_id_uniqueness_preserved
    { edges := Option.some [{ type := "a" }, { type := "b" }] } "a"
    { lineThickness := Option.some 4 } (by decide)
/-- Writing the same selector twice keeps only the second rule. -/
theorem setStyle_setStyle (styles : StylesMap) (key : String)
    (r₁ r₂ : EdgeRule) :
    setStyle (setStyle styles key r₁) key r₂ = setStyle styles key r₂ := by
  induction styles with
  | nil => simp [setStyle]
  | cons kv rest ih =>
    obtain ⟨k, r⟩ := kv
    by_cases h : k = key
    · simp [setStyle, h]
    · simp [setStyle, h, ih]

/-- An assignment preserves a property holding of every entry, when the new
entry has it. -/
theorem forall_setStyle (P : String × EdgeRule → Prop) (styles : StylesMap)
    (key : String) (r : EdgeRule) (hm : styles.Forall P) (hr : P (key, r)) :
    (setStyle styles key r).Forall P := by
  induction styles with
  | nil => exact (List.forall_cons P (key, r) []).mpr ⟨hr, trivial⟩
  | cons kv rest ih =>
    obtain ⟨k, r'⟩ := kv
    rw [List.forall_cons] at hm
    by_cases h : k = key
    · show List.Forall P (if k = key then (key, r) :: rest
        else (k, r') :: setStyle rest key r)
      rw [if_pos h, List.forall_cons]
      exact ⟨hr, hm.2⟩
    · show List.Forall P (if k = key then (key, r) :: rest
        else (k, r') :: setStyle rest key r)
      rw [if_neg h, List.forall_cons]
      exact ⟨hm.1, ih hm.2⟩

/-- The loop body for one edge config collapses to a single assignment of
the full merged rule: the static rule written first is overwritten at the
same selector before the pass ends. -/
theorem processEdgeConfig_eq_setStyle (textTransform : String → String)
    (displayEdges : EdgeId → Option DisplayEdge)
    (getEdgeId : RenderedEdgeId → EdgeId)
    (allStylingEdges : Option (List EdgePreferences)) (styles : StylesMap)
    (etConfig : EdgeTypeConfig) :
    processEdgeConfig textTransform displayEdges getEdgeId allStylingEdges
        styles etConfig =
      setStyle styles (edgeSelector etConfig.type)
        (buildEdgeRule displayEdges getEdgeId
          (mergedEdgeStyle etConfig
            (findUserEdgeStyle allStylingEdges etConfig.type))) :=
  setStyle_setStyle styles (edgeSelector etConfig.type) _ _

/-- Every rule the edge loop leaves in the styles map satisfies a property,
provided the rules it writes do and the starting map does. -/
theorem forall_processEdgeConfigs (textTransform : String → String)
    (displayEdges : EdgeId → Option DisplayEdge)
    (getEdgeId : RenderedEdgeId → EdgeId)
    (allStylingEdges : Option (List EdgePreferences))
    (P : String × EdgeRule → Prop)
    (hP : ∀ etConfig : EdgeTypeConfig,
      P (edgeSelector etConfig.type,
        buildEdgeRule displayEdges getEdgeId
          (mergedEdgeStyle etConfig
            (findUserEdgeStyle allStylingEdges etConfig.type)))) :
    ∀ (etConfigs : List EdgeTypeConfig) (styles : StylesMap),
      styles.Forall P →
      (processEdgeConfigs textTransform displayEdges getEdgeId allStylingEdges
        styles etConfigs).Forall P := by
  intro etConfigs
  induction etConfigs with
  | nil => exact fun styles h => h
  | cons etConfig rest ih =>
    intro styles h
    show (processEdgeConfigs textTransform displayEdges getEdgeId
      allStylingEdges
      (processEdgeConfig textTransform displayEdges getEdgeId allStylingEdges
        styles etConfig) rest).Forall P
    refine ih _ ?_
    rw [processEdgeConfig_eq_setStyle]
    exact forall_setStyle P styles _ _ h (hP etConfig)

/-- C4: every edge rule published by the edge loop carries as its label a
deferred resolver — the `EdgeLabel.resolver` constructor, not the
`EdgeLabel.staticLabel` string written by the first, overwritten assignment
— and, applied to a rendered edge identifier, the resolver derives the
logical edge id, looks it up in the live display-edge map, and returns the
display name on a hit and the fixed missing-value sentinel on a miss. -/
theorem c4_published_label_is_resolver (textTransform : String → String)
    (displayEdges : EdgeId → Option DisplayEdge)
    (getEdgeId : RenderedEdgeId → EdgeId)
    (allStylingEdges : Option (List EdgePreferences))
    (etConfigs : List EdgeTypeConfig) :
    (processEdgeConfigs textTransform displayEdges getEdgeId allStylingEdges
      [] etConfigs).Forall fun kv =>
        ∃ f, kv.2.label = EdgeLabel.resolver f ∧
          ∀ el, f el =
            match displayEdges (getEdgeId el) with
            | Option.some displayEdge => displayEdge.displayName
            | Option.none => MISSING_DISPLAY_VALUE := by
  refine forall_processEdgeConfigs textTransform displayEdges getEdgeId
    allStylingEdges _ ?_ etConfigs [] trivial
  intro etConfig
  exact ⟨_, rfl, fun el => rfl⟩

end GraphExplorer
